import Mathlib

/-!
# Verification of the `ServeDir` static-file endpoint (`src/fs/serve_dir.rs`)

The handler owns a URL prefix string and a capability-sandboxed directory
handle.  `call` derives a relative path from the request's URL path by
stripping the prefix (with any trailing `*` wildcard removed) and trimming
leading `/` separators, opens the path inside the sandbox, and maps the
outcome to an HTTP response (200 with the file streamed, 403, 404) or a
propagated error.

Shallow embedding conventions:
* paths and strings are `List Char`;
* the sandboxed directory (`cap_async_std::fs::Dir`, external to the crate's
  own sources) is a pure function from a relative path to an open outcome;
* the panicking `unwrap()` on prefix-stripping is modelled by `call`
  returning `Option` (`none` = panic);
* log emission is modelled by returning the list of emitted log entries.
-/

/-- Rust `str::trim_end_matches(c)`: repeatedly remove the suffix `c`. -/
def trimEndMatches (c : Char) (s : List Char) : List Char :=
  (s.reverse.dropWhile (fun x => x == c)).reverse

/-- Rust `str::trim_start_matches(c)`: repeatedly remove the leading `c`. -/
def trimStartMatches (c : Char) (s : List Char) : List Char :=
  s.dropWhile (fun x => x == c)

/-- Rust `str::strip_prefix(pre)`: the remainder after `pre` when `pre`
leads the string, otherwise `none`. -/
def stripPrefix (pre s : List Char) : Option (List Char) :=
  if pre.isPrefixOf s then some (s.drop pre.length) else none

/-- The `std::io::ErrorKind` values distinguished by the handler; every
kind other than the two named ones is collapsed into `other`. -/
inductive ErrorKind where
  | permissionDenied
  | notFound
  | other (code : Nat)
deriving DecidableEq

/-- Outcome of `Dir::open` on a relative path: a readable file (its byte
contents) or an `std::io::Error` carrying a kind. -/
inductive OpenResult where
  | ok (contents : List Nat)
  | err (kind : ErrorKind)
deriving DecidableEq

/-- The parts of an HTTP response the handler determines: status code,
body bytes, and the content-length / content-type it sets (if any). -/
structure Response where
  status : Nat
  body : List Nat
  contentLength : Option Nat
  contentType : Option (List Char)
deriving DecidableEq

/-- Modelled from the spec: `Response::new(status)` (used for the 403 and
404 branches) is a response with the given status, an empty body and no
content headers set by the handler. -/
def Response.new (status : Nat) : Response :=
  ⟨status, [], none, none⟩

/-- Modelled from the spec: `Response::builder(StatusCode::Ok)` with body
`Body::from_reader(BufReader::new(file), None)` — status 200, the opened
file's bytes streamed as the body, and no content-length or content-type
set by the handler. -/
def Response.okFile (contents : List Nat) : Response :=
  ⟨200, contents, none, none⟩

/-- The log lines `call` can emit, each recording the relative path. -/
inductive LogEntry where
  | infoRequested (path : List Char)
  | warnUnauthorized (path : List Char)
  | warnNotFound (path : List Char)
deriving DecidableEq

/-- `Result` of the endpoint: a well-formed response, or an error
propagated to the hosting framework. -/
inductive CallResult where
  | ok (r : Response)
  | error (e : ErrorKind)
deriving DecidableEq

/-- What one invocation of `call` produces: its `Result` value and the log
entries emitted along the way, in order. -/
structure CallOutput where
  result : CallResult
  logs : List LogEntry
deriving DecidableEq

/-- The `ServeDir` endpoint: a URL prefix and a sandboxed directory. -/
structure ServeDir where
  prefixStr : List Char
  dir : List Char → OpenResult

/-- The body of `call` after the relative path has been derived: the
`match` on `self.dir.open(path)` (lines 34–50 of `serve_dir.rs`). -/
def handlePath (self : ServeDir) (path : List Char) : CallOutput :=
  match self.dir path with
  | OpenResult.ok contents =>
      ⟨CallResult.ok (Response.okFile contents), [LogEntry.infoRequested path]⟩
  | OpenResult.err ErrorKind.permissionDenied =>
      ⟨CallResult.ok (Response.new 403),
        [LogEntry.infoRequested path, LogEntry.warnUnauthorized path]⟩
  | OpenResult.err ErrorKind.notFound =>
      ⟨CallResult.ok (Response.new 404),
        [LogEntry.infoRequested path, LogEntry.warnNotFound path]⟩
  | OpenResult.err (ErrorKind.other n) =>
      ⟨CallResult.error (ErrorKind.other n), [LogEntry.infoRequested path]⟩

/-- `ServeDir::call`: strip the wildcard-trimmed prefix (panicking — `none`
— when it does not lead the URL path), trim leading `/`, then dispatch on
the sandbox open outcome. -/
def ServeDir.call (self : ServeDir) (urlPath : List Char) : Option CallOutput :=
  match stripPrefix (trimEndMatches '*' self.prefixStr) urlPath with
  | none => none
  | some p => some (handlePath self (trimStartMatches '/' p))

/-- `ServeDir::call` in state-passing form: the handler value (its
configuration) is threaded through the call and returned alongside the
output, mirroring the `&self` receiver. -/
def ServeDir.callSt (self : ServeDir) (urlPath : List Char) :
    Option CallOutput × ServeDir :=
  match stripPrefix (trimEndMatches '*' self.prefixStr) urlPath with
  | none => (none, self)
  | some p =>
    match self.dir (trimStartMatches '/' p) with
    | OpenResult.ok contents =>
        (some ⟨CallResult.ok (Response.okFile contents),
          [LogEntry.infoRequested (trimStartMatches '/' p)]⟩, self)
    | OpenResult.err ErrorKind.permissionDenied =>
        (some ⟨CallResult.ok (Response.new 403),
          [LogEntry.infoRequested (trimStartMatches '/' p),
           LogEntry.warnUnauthorized (trimStartMatches '/' p)]⟩, self)
    | OpenResult.err ErrorKind.notFound =>
        (some ⟨CallResult.ok (Response.new 404),
          [LogEntry.infoRequested (trimStartMatches '/' p),
           LogEntry.warnNotFound (trimStartMatches '/' p)]⟩, self)
    | OpenResult.err (ErrorKind.other n) =>
        (some ⟨CallResult.error (ErrorKind.other n),
          [LogEntry.infoRequested (trimStartMatches '/' p)]⟩, self)

/-! ## Helper lemmas -/

/-- `stripPrefix` succeeds on any extension of the prefix, yielding the
extension. -/
lemma stripPrefix_append (pre x : List Char) :
    stripPrefix pre (pre ++ x) = some x := by
  induction pre with
  | nil => simp [stripPrefix, List.isPrefixOf]
  | cons a l ih => simp_all [stripPrefix, List.isPrefixOf]

/-- When `stripPrefix` fails the prefix does not lead the string. -/
lemma stripPrefix_eq_none_iff (pre s : List Char) :
    stripPrefix pre s = none ↔ ¬ pre.isPrefixOf s := by
  by_cases h : pre.isPrefixOf s <;> simp [stripPrefix, h]

/-- Unfolding `call` when the prefix strip succeeds. -/
lemma call_eq_of_strip (self : ServeDir) (url p : List Char)
    (h : stripPrefix (trimEndMatches '*' self.prefixStr) url = some p) :
    self.call url = some (handlePath self (trimStartMatches '/' p)) := by
  unfold ServeDir.call
  rw [h]

/-- Leading copies of a character are absorbed by `dropWhile`. -/
lemma dropWhile_replicate_append (c : Char) (n : Nat) (rel : List Char) :
    List.dropWhile (fun x => x == c) (List.replicate n c ++ rel) =
      List.dropWhile (fun x => x == c) rel := by
  induction n with
  | zero => rfl
  | succ n ih => simp [List.replicate_succ, List.dropWhile_cons, ih]

/-! ## Claims -/

/-- Claim C1: for every request whose derived relative path attempts to
escape the sandbox root, `call` never produces a status-200 response with
outside content; assuming the sandbox open primitive reports such paths as
`PermissionDenied` or `NotFound`, the result is a 403 or 404 response
(with an empty body, in particular never a 200). -/
theorem serveDir_traversal_never_leaks (self : ServeDir) (url p : List Char)
    (hstrip : stripPrefix (trimEndMatches '*' self.prefixStr) url = some p)
    (hescape :
      self.dir (trimStartMatches '/' p) = OpenResult.err ErrorKind.permissionDenied ∨
      self.dir (trimStartMatches '/' p) = OpenResult.err ErrorKind.notFound) :
    ∃ out : CallOutput, self.call url = some out ∧
      ∃ r : Response, out.result = CallResult.ok r ∧
        (r.status = 403 ∨ r.status = 404) ∧ r.status ≠ 200 ∧ r.body = [] := by
  rw [call_eq_of_strip self url p hstrip]
  refine ⟨handlePath self (trimStartMatches '/' p), rfl, ?_⟩
  rcases hescape with h | h
  · refine ⟨Response.new 403, ?_, Or.inl rfl, by decide, rfl⟩
    simp [handlePath, h]
  · refine ⟨Response.new 404, ?_, Or.inr rfl, by decide, rfl⟩
    simp [handlePath, h]

theorem serveDir_traversal_never_leaks_witness :
    (stripPrefix (trimEndMatches '*' ("/static/*".toList))
        ("/static/../secret".toList) = some ("../secret".toList)) ∧
    ∃ out : CallOutput,
      (ServeDir.mk "/static/*".toList
        (fun q => if q = "../secret".toList
          then OpenResult.err ErrorKind.permissionDenied
          else OpenResult.err ErrorKind.notFound)).call
        "/static/../secret".toList = some out ∧
      ∃ r : Response, out.result = CallResult.ok r ∧
        (r.status = 403 ∨ r.status = 404) ∧ r.status ≠ 200 ∧ r.body = [] :=
  ⟨by decide,
    serveDir_traversal_never_leaks
      (ServeDir.mk "/static/*".toList
        (fun q => if q = "../secret".toList
          then OpenResult.err ErrorKind.permissionDenied
          else OpenResult.err ErrorKind.notFound))
      "/static/../secret".toList "../secret".toList (by decide)
      (Or.inl (by decide))⟩

/-- Claim C2: for every relative path `p` (already free of leading
separators) whose sandbox open succeeds, requesting `<prefix>/p` yields a
status-200 response whose body is the opened file's bytes, with no
content-length or content-type set by the handler. -/
theorem serveDir_success_streams_file (self : ServeDir) (p : List Char)
    (contents : List Nat)
    (hrel : trimStartMatches '/' p = p)
    (hopen : self.dir p = OpenResult.ok contents) :
    self.call (trimEndMatches '*' self.prefixStr ++ '/' :: p) =
      some ⟨CallResult.ok ⟨200, contents, none, none⟩,
        [LogEntry.infoRequested p]⟩ := by
  have hstrip : stripPrefix (trimEndMatches '*' self.prefixStr)
      (trimEndMatches '*' self.prefixStr ++ '/' :: p) = some ('/' :: p) :=
    stripPrefix_append _ _
  rw [call_eq_of_strip self _ _ hstrip]
  have htrim : trimStartMatches '/' ('/' :: p) = p := by
    have hstep : trimStartMatches '/' ('/' :: p) = trimStartMatches '/' p := by
      simp [trimStartMatches, List.dropWhile_cons]
    rw [hstep, hrel]
  rw [htrim]
  simp [handlePath, hopen, Response.okFile]

theorem serveDir_success_streams_file_witness :
    (trimStartMatches '/' ("foo".toList) = "foo".toList ∧
      (ServeDir.mk "/static/*".toList
        (fun q => if q = "foo".toList then OpenResult.ok [70, 111, 111]
          else OpenResult.err ErrorKind.notFound)).dir "foo".toList =
        OpenResult.ok [70, 111, 111]) ∧
    (ServeDir.mk "/static/*".toList
      (fun q => if q = "foo".toList then OpenResult.ok [70, 111, 111]
        else OpenResult.err ErrorKind.notFound)).call
      (trimEndMatches '*' ("/static/*".toList) ++ '/' :: "foo".toList) =
      some ⟨CallResult.ok ⟨200, [70, 111, 111], none, none⟩,
        [LogEntry.infoRequested "foo".toList]⟩ :=
  ⟨⟨by decide, by decide⟩,
    serveDir_success_streams_file
      (ServeDir.mk "/static/*".toList
        (fun q => if q = "foo".toList then OpenResult.ok [70, 111, 111]
          else OpenResult.err ErrorKind.notFound))
      "foo".toList [70, 111, 111] (by decide) (by decide)⟩

/-- Claim C3: when the sandbox open fails with `PermissionDenied`, `call`
returns (as a successful, non-error result) a status-403 response with an
empty body, emits a warning-level log naming the denied relative path, and
carries no OS error text in the response (the body is empty and no error
value reaches the result). -/
theorem serveDir_permission_denied_403 (self : ServeDir) (url p : List Char)
    (hstrip : stripPrefix (trimEndMatches '*' self.prefixStr) url = some p)
    (hperm : self.dir (trimStartMatches '/' p) =
      OpenResult.err ErrorKind.permissionDenied) :
    self.call url =
      some ⟨CallResult.ok ⟨403, [], none, none⟩,
        [LogEntry.infoRequested (trimStartMatches '/' p),
         LogEntry.warnUnauthorized (trimStartMatches '/' p)]⟩ := by
  rw [call_eq_of_strip self url p hstrip]
  simp [handlePath, hperm, Response.new]

theorem serveDir_permission_denied_403_witness :
    (stripPrefix (trimEndMatches '*' ("/static/".toList))
        ("/static/locked".toList) = some ("locked".toList) ∧
      (ServeDir.mk "/static/".toList
        (fun _ => OpenResult.err ErrorKind.permissionDenied)).dir
        (trimStartMatches '/' ("locked".toList)) =
        OpenResult.err ErrorKind.permissionDenied) ∧
    (ServeDir.mk "/static/".toList
      (fun _ => OpenResult.err ErrorKind.permissionDenied)).call
      "/static/locked".toList =
      some ⟨CallResult.ok ⟨403, [], none, none⟩,
        [LogEntry.infoRequested (trimStartMatches '/' ("locked".toList)),
         LogEntry.warnUnauthorized (trimStartMatches '/' ("locked".toList))]⟩ :=
  ⟨⟨by decide, by decide⟩,
    serveDir_permission_denied_403
      (ServeDir.mk "/static/".toList
        (fun _ => OpenResult.err ErrorKind.permissionDenied))
      "/static/locked".toList "locked".toList (by decide) (by decide)⟩

/-- Claim C4: when the sandbox open fails with `NotFound`, `call` returns
(as a successful, non-error result) a status-404 response with an empty
body and emits a warning-level log naming the missing path. -/
theorem serveDir_not_found_404 (self : ServeDir) (url p : List Char)
    (hstrip : stripPrefix (trimEndMatches '*' self.prefixStr) url = some p)
    (hmiss : self.dir (trimStartMatches '/' p) =
      OpenResult.err ErrorKind.notFound) :
    self.call url =
      some ⟨CallResult.ok ⟨404, [], none, none⟩,
        [LogEntry.infoRequested (trimStartMatches '/' p),
         LogEntry.warnNotFound (trimStartMatches '/' p)]⟩ := by
  rw [call_eq_of_strip self url p hstrip]
  simp [handlePath, hmiss, Response.new]

theorem serveDir_not_found_404_witness :
    (stripPrefix (trimEndMatches '*' ("/static/".toList))
        ("/static/bar".toList) = some ("bar".toList) ∧
      (ServeDir.mk "/static/".toList
        (fun _ => OpenResult.err ErrorKind.notFound)).dir
        (trimStartMatches '/' ("bar".toList)) =
        OpenResult.err ErrorKind.notFound) ∧
    (ServeDir.mk "/static/".toList
      (fun _ => OpenResult.err ErrorKind.notFound)).call
      "/static/bar".toList =
      some ⟨CallResult.ok ⟨404, [], none, none⟩,
        [LogEntry.infoRequested (trimStartMatches '/' ("bar".toList)),
         LogEntry.warnNotFound (trimStartMatches '/' ("bar".toList))]⟩ :=
  ⟨⟨by decide, by decide⟩,
    serveDir_not_found_404
      (ServeDir.mk "/static/".toList
        (fun _ => OpenResult.err ErrorKind.notFound))
      "/static/bar".toList "bar".toList (by decide) (by decide)⟩

/-- Claim C5: when the sandbox open fails with any error kind other than
`PermissionDenied` or `NotFound`, `call` returns that error to the hosting
framework (an error result) instead of mapping it to a 403 or 404
response. -/
theorem serveDir_other_error_propagates (self : ServeDir) (url p : List Char)
    (n : Nat)
    (hstrip : stripPrefix (trimEndMatches '*' self.prefixStr) url = some p)
    (herr : self.dir (trimStartMatches '/' p) =
      OpenResult.err (ErrorKind.other n)) :
    self.call url =
      some ⟨CallResult.error (ErrorKind.other n),
        [LogEntry.infoRequested (trimStartMatches '/' p)]⟩ := by
  rw [call_eq_of_strip self url p hstrip]
  simp [handlePath, herr]

theorem serveDir_other_error_propagates_witness :
    (stripPrefix (trimEndMatches '*' ("/static/".toList))
        ("/static/disk".toList) = some ("disk".toList) ∧
      (ServeDir.mk "/static/".toList
        (fun _ => OpenResult.err (ErrorKind.other 5))).dir
        (trimStartMatches '/' ("disk".toList)) =
        OpenResult.err (ErrorKind.other 5)) ∧
    (ServeDir.mk "/static/".toList
      (fun _ => OpenResult.err (ErrorKind.other 5))).call
      "/static/disk".toList =
      some ⟨CallResult.error (ErrorKind.other 5),
        [LogEntry.infoRequested (trimStartMatches '/' ("disk".toList))]⟩ :=
  ⟨⟨by decide, by decide⟩,
    serveDir_other_error_propagates
      (ServeDir.mk "/static/".toList
        (fun _ => OpenResult.err (ErrorKind.other 5)))
      "/static/disk".toList "disk".toList 5 (by decide) (by decide)⟩

/-- Claim C6: `call` strips any trailing `*` wildcard from the configured
prefix before comparison, and succeeds in the prefix-stripping step exactly
when the wildcard-stripped prefix leads the URL path; when that router
invariant is violated `call` faults (the `unwrap` panics, modelled as
`none`) rather than returning a recoverable HTTP response. -/
theorem serveDir_prefix_mismatch_faults (self : ServeDir) (url : List Char) :
    self.call url = none ↔
      ¬ (trimEndMatches '*' self.prefixStr).isPrefixOf url := by
  unfold ServeDir.call
  rcases hcase : stripPrefix (trimEndMatches '*' self.prefixStr) url with _ | p
  · simp [(stripPrefix_eq_none_iff _ _).mp hcase]
  · have : ¬ stripPrefix (trimEndMatches '*' self.prefixStr) url = none := by
      simp [hcase]
    rw [stripPrefix_eq_none_iff] at this
    simp [hcase, not_not.mp this]

/-- Claim C7: redundant leading path separators after the prefix are
normalised away — a URL path carrying any number of extra `/` characters
between the prefix and the relative path resolves to the same relative
path, and hence to the same result, because `call` removes all leading `/`
before passing the path to the sandbox open. -/
theorem serveDir_leading_slash_normalization (self : ServeDir)
    (rel : List Char) (n : Nat) :
    self.call (trimEndMatches '*' self.prefixStr ++
        (List.replicate n '/' ++ rel)) =
      self.call (trimEndMatches '*' self.prefixStr ++ rel) := by
  rw [call_eq_of_strip self _ _ (stripPrefix_append _ _),
    call_eq_of_strip self _ _ (stripPrefix_append _ _)]
  unfold trimStartMatches
  rw [dropWhile_replicate_append]

/-- Claim C8: `call` is a deterministic, stateless function of the request
and of the sandbox open outcome — two handlers with the same configured
prefix whose sandboxes answer every open identically give identical
results (same status, same body, same logs) for every request, so
repeating a request against unchanged state repeats the result. -/
theorem serveDir_deterministic (s1 s2 : ServeDir) (url : List Char)
    (hp : s1.prefixStr = s2.prefixStr)
    (hd : ∀ q, s1.dir q = s2.dir q) :
    s1.call url = s2.call url := by
  have hph : ∀ path, handlePath s1 path = handlePath s2 path := by
    intro path
    unfold handlePath
    rw [hd path]
  unfold ServeDir.call
  rw [hp]
  cases stripPrefix (trimEndMatches '*' s2.prefixStr) url with
  | none => rfl
  | some p => exact congrArg some (hph (trimStartMatches '/' p))

theorem serveDir_deterministic_witness :
    (ServeDir.mk "/a/".toList (fun _ => OpenResult.ok [1])).call
        "/a/x".toList =
      (ServeDir.mk "/a/".toList (fun _ => OpenResult.ok [0 + 1])).call
        "/a/x".toList :=
  serveDir_deterministic _ _ _ rfl (fun _ => rfl)

/-- Claim C9: an invocation leaves the handler's configuration (prefix and
sandbox handle) unchanged: the state-passing form of `call` returns the
handler exactly as it received it, and its observable output is the pure
`call` result, whose only recorded effects are the sandbox open and the
emitted log entries. -/
theorem serveDir_config_unchanged (self : ServeDir) (url : List Char) :
    self.callSt url = (self.call url, self) := by
  unfold ServeDir.callSt ServeDir.call
  rcases hs : stripPrefix (trimEndMatches '*' self.prefixStr) url with _ | p
  · rfl
  · rcases hd : self.dir (trimStartMatches '/' p) with c | k
    · simp [handlePath, hd]
    · cases k <;> simp [handlePath, hd]

/-- Claim C10: when the URL path equals the configured prefix exactly
(after stripping any trailing `*`), the derived relative path is the empty
string and the result is exactly what the open-dispatch produces for the
empty path — the handler has no special case for this edge. -/
theorem serveDir_exact_prefix_opens_empty (self : ServeDir) :
    self.call (trimEndMatches '*' self.prefixStr) =
      some (handlePath self []) := by
  have h : stripPrefix (trimEndMatches '*' self.prefixStr)
      (trimEndMatches '*' self.prefixStr) = some [] := by
    have happ := stripPrefix_append (trimEndMatches '*' self.prefixStr) []
    rw [List.append_nil] at happ
    exact happ
  rw [call_eq_of_strip self _ _ h]
  rfl
